import Mathlib

/-!
Shallow embedding of the geofenced face-verified attendance tracker
(student capture flow in the StudentDashboard component, lecturer capture
flow in the LecturerDashboard component, offline queue processing, session
start validation, and attendance-percentage analytics), together with
theorems settling the specification claims about it.

External collaborators (device geolocation, the face-comparison oracle,
the connectivity signal, the camera capture and the pure distance
function) are modelled as inputs of the flow functions: each run of a
flow receives the values those collaborators would have produced.
-/

/-- Calendar timestamps: `day` models the calendar day extracted by
`toDateString`, `ms` the time within the day. -/
structure Timestamp where
  day : Nat
  ms : Nat
deriving DecidableEq, Repr

/-- A geographic coordinate triple as stored by the app. -/
structure GeoTag where
  latitude : Rat
  longitude : Rat
  altitude : Option Rat
deriving DecidableEq, Repr

structure Course where
  id : String
  name : String
deriving DecidableEq, Repr

structure CourseUnit where
  id : String
  name : String
  courseId : String
deriving DecidableEq, Repr

structure Student where
  id : String
  name : String
  courseId : String
  photo : String
deriving DecidableEq, Repr

/-- A user account (lecturer/admin); the reference photo may be absent. -/
structure UserAcct where
  id : String
  name : String
  photo : Option String
deriving DecidableEq, Repr

structure StudentSession where
  course : Course
  unit : CourseUnit
  lecturerId : String
  lockedLocation : GeoTag
  radius : Rat
  startTime : Timestamp
deriving DecidableEq, Repr

structure FacultySession where
  id : String
  name : String
  startTime : Timestamp
  lockedLocation : GeoTag
  radius : Rat
deriving DecidableEq, Repr

structure AttendanceRecord where
  studentId : String
  studentName : String
  timestamp : Timestamp
  courseId : String
  unitId : String
  sessionLocation : GeoTag
  sessionRadius : Rat
  geo : GeoTag
deriving DecidableEq, Repr

structure LecturerAttendanceRecord where
  userId : String
  userName : String
  timestamp : Timestamp
  geo : GeoTag
deriving DecidableEq, Repr

/-- The capture state machine statuses (union of the two components'
`Status` types; the lecturer component declares `OFFLINE_QUEUED` as well). -/
inductive Status where
  | READY
  | CHECKING_LOCATION
  | CAPTURING
  | VERIFYING
  | SUBMITTING
  | CONFIRMED
  | ERROR
  | OFFLINE_QUEUED
deriving DecidableEq, Repr

/-- Observable collaborator calls and persistence effects of a flow run. -/
inductive Event where
  | geoCall
  | distanceCheck
  | cameraStart
  | capture
  | faceCall
  | faceSuccess
  | commit
  | enqueueRecord
deriving DecidableEq, Repr

/-- What the capture panel shows for a subject: nothing (flow not offered),
the "already marked" terminal display, or the interactive flow. -/
inductive CaptureDisplay where
  | hidden
  | alreadyMarked
  | flowRan
deriving DecidableEq, Repr

/-- `firstPrecedes a b t` holds when no occurrence of `b` in `t` comes
before the first occurrence of `a`; with no `b` at all it holds trivially. -/
def firstPrecedes (a b : Event) : List Event → Bool
  | [] => true
  | e :: rest => if e == b then false else if e == a then true else firstPrecedes a b rest

instance instDecEqExcept {ε α : Type} [DecidableEq ε] [DecidableEq α] :
    DecidableEq (Except ε α) := fun a b =>
  match a, b with
  | .error e, .error f =>
    if h : e = f then .isTrue (congrArg Except.error h)
    else .isFalse fun hc => h (Except.error.inj hc)
  | .ok x, .ok y =>
    if h : x = y then .isTrue (congrArg Except.ok h)
    else .isFalse fun hc => h (Except.ok.inj hc)
  | .error _, .ok _ => .isFalse fun hc => Except.noConfusion hc
  | .ok _, .error _ => .isFalse fun hc => Except.noConfusion hc

namespace StudentFlow

/-- Component state of the student capture flow, including the ledger
(`attendance`) and the durable offline queue (`queue`). -/
structure State where
  status : Status
  errorMessage : Option String
  isDistanceError : Bool
  studentLocation : Option GeoTag
  showErrorMap : Bool
  cameraOn : Bool
  attendance : List AttendanceRecord
  queue : List AttendanceRecord
deriving DecidableEq, Repr

/-- Collaborator outcomes consumed by one student attempt. -/
structure Env where
  geo : Except String GeoTag
  photo : Option String
  face : Except String Bool
  online : Bool
  now : Timestamp
deriving DecidableEq, Repr

def isSessionActiveForStudent (studentSession : Option StudentSession)
    (studentData : Option Student) : Bool :=
  match studentSession, studentData with
  | some s, some sd => sd.courseId == s.course.id
  | _, _ => false

def isAlreadyMarked (studentSession : Option StudentSession)
    (studentData : Option Student) (attendance : List AttendanceRecord) : Bool :=
  match studentSession, studentData with
  | some s, some sd =>
    isSessionActiveForStudent (some s) (some sd) &&
      attendance.any fun r =>
        r.studentId == sd.id && r.unitId == s.unit.id &&
          r.timestamp.day == s.startTime.day
  | _, _ => false

def handleStartAttendanceProcess (dist : GeoTag → GeoTag → Rat)
    (studentSession : Option StudentSession) (st : State) (env : Env) :
    State × List Event :=
  let st0 : State :=
    { st with status := .CHECKING_LOCATION, errorMessage := none, isDistanceError := false }
  match env.geo with
  | .error e => ({ st0 with status := .ERROR, errorMessage := some e }, [.geoCall])
  | .ok loc =>
    let st1 : State := { st0 with studentLocation := some loc }
    match studentSession with
    | none =>
      ({ st1 with status := .ERROR, errorMessage := some "Session is not active." },
        [.geoCall])
    | some s =>
      if dist loc s.lockedLocation > s.radius then
        ({ st1 with
            status := .ERROR,
            errorMessage := some "You are not in the attendance zone.",
            isDistanceError := true },
          [.geoCall, .distanceCheck])
      else
        ({ st1 with status := .CAPTURING, cameraOn := true },
          [.geoCall, .distanceCheck, .cameraStart])

def handleSubmit (studentData : Option Student)
    (studentSession : Option StudentSession) (st : State) (env : Env) :
    State × List Event :=
  let st0 : State := { st with errorMessage := none, isDistanceError := false }
  match env.photo, studentData, studentSession with
  | some _, some sd, some s =>
    let st1 : State := { st0 with cameraOn := false, status := .VERIFYING }
    match env.face with
    | .error e =>
      ({ st1 with status := .ERROR, errorMessage := some e }, [.capture, .faceCall])
    | .ok false =>
      ({ st1 with
          status := .ERROR,
          errorMessage := some "Face does not match registered photo. Please try again." },
        [.capture, .faceCall])
    | .ok true =>
      let st2 : State := { st1 with status := .SUBMITTING }
      match st2.studentLocation with
      | none =>
        ({ st2 with
            status := .ERROR,
            errorMessage := some "Location data was lost. Please try the process again." },
          [.capture, .faceCall, .faceSuccess])
      | some loc =>
        let newRecord : AttendanceRecord :=
          { studentId := sd.id, studentName := sd.name, timestamp := env.now,
            courseId := s.course.id, unitId := s.unit.id,
            sessionLocation := s.lockedLocation, sessionRadius := s.radius,
            geo := loc }
        if env.online then
          ({ st2 with attendance := st2.attendance ++ [newRecord], status := .CONFIRMED },
            [.capture, .faceCall, .faceSuccess, .commit])
        else
          ({ st2 with queue := st2.queue ++ [newRecord], status := .OFFLINE_QUEUED },
            [.capture, .faceCall, .faceSuccess, .enqueueRecord])
  | _, _, _ =>
    ({ st0 with
        status := .ERROR,
        errorMessage := some "Could not capture photo or session data is missing." },
      [.capture])

def handleRetry (st : State) : State :=
  { st with
      status := .READY, errorMessage := none, isDistanceError := false,
      showErrorMap := false, cameraOn := false }

structure RunOut where
  display : CaptureDisplay
  state : State
  events : List Event
deriving DecidableEq, Repr

/-- One full subject-driven run of the student capture flow: the render
gate, the entry guard, the location step and, when the camera screen was
reached, the submit step. -/
def studentRun (dist : GeoTag → GeoTag → Rat) (studentSession : Option StudentSession)
    (studentData : Option Student) (st : State) (env : Env) : RunOut :=
  if isSessionActiveForStudent studentSession studentData then
    if isAlreadyMarked studentSession studentData st.attendance then
      ⟨.alreadyMarked, st, []⟩
    else
      let r1 := handleStartAttendanceProcess dist studentSession st env
      if r1.1.status == .CAPTURING then
        let r2 := handleSubmit studentData studentSession r1.1 env
        ⟨.flowRan, r2.1, r1.2 ++ r2.2⟩
      else
        ⟨.flowRan, r1.1, r1.2⟩
  else
    ⟨.hidden, st, []⟩

/-- The queue flush handler: when the queue is nonempty and the device is
online, all queued records move to the ledger at once and the queue is
cleared. -/
def processQueue (attendance queue : List AttendanceRecord) (online : Bool) :
    List AttendanceRecord × List AttendanceRecord :=
  if 0 < queue.length ∧ online = true then (attendance ++ queue, [])
  else (attendance, queue)

/-- Durable append of a record to the offline queue. -/
def enqueue (queue : List AttendanceRecord) (r : AttendanceRecord) :
    List AttendanceRecord :=
  queue ++ [r]

end StudentFlow

namespace LecturerFlow

structure State where
  status : Status
  errorMessage : Option String
  isDistanceError : Bool
  lecturerLocation : Option GeoTag
  showErrorMap : Bool
  cameraOn : Bool
  lecturerAttendance : List LecturerAttendanceRecord
deriving DecidableEq, Repr

structure Env where
  geo : Except String GeoTag
  photo : Option String
  face : Except String Bool
  online : Bool
  now : Timestamp
deriving DecidableEq, Repr

def isAlreadyMarked (facultySession : Option FacultySession) (userId : String)
    (lecturerAttendance : List LecturerAttendanceRecord) : Bool :=
  match facultySession with
  | none => false
  | some s =>
    lecturerAttendance.any fun r =>
      r.userId == userId && r.timestamp.day == s.startTime.day

def handleSubmit (dist : GeoTag → GeoTag → Rat) (user : UserAcct)
    (facultySession : Option FacultySession) (st : State) (env : Env) :
    State × List Event :=
  let st0 : State := { st with errorMessage := none, isDistanceError := false }
  match env.photo, user.photo, facultySession with
  | some _, some _, some s =>
    let st1 : State := { st0 with cameraOn := false, status := .VERIFYING }
    match env.face with
    | .error e =>
      ({ st1 with status := .ERROR, errorMessage := some e }, [.capture, .faceCall])
    | .ok false =>
      ({ st1 with
          status := .ERROR,
          errorMessage := some "Face does not match registered photo. Please try again." },
        [.capture, .faceCall])
    | .ok true =>
      let st2 : State := { st1 with status := .SUBMITTING }
      match env.geo with
      | .error e =>
        ({ st2 with status := .ERROR, errorMessage := some e },
          [.capture, .faceCall, .faceSuccess, .geoCall])
      | .ok loc =>
        let st3 : State := { st2 with lecturerLocation := some loc }
        if dist loc s.lockedLocation > s.radius then
          ({ st3 with
              status := .ERROR,
              errorMessage := some "You are not in the attendance zone.",
              isDistanceError := true },
            [.capture, .faceCall, .faceSuccess, .geoCall, .distanceCheck])
        else
          let newRecord : LecturerAttendanceRecord :=
            { userId := user.id, userName := user.name, timestamp := env.now,
              geo := loc }
          if env.online then
            ({ st3 with
                lecturerAttendance := st3.lecturerAttendance ++ [newRecord],
                status := .CONFIRMED },
              [.capture, .faceCall, .faceSuccess, .geoCall, .distanceCheck, .commit])
          else
            ({ st3 with status := .CONFIRMED },
              [.capture, .faceCall, .faceSuccess, .geoCall, .distanceCheck])
  | _, _, _ =>
    ({ st0 with
        status := .ERROR,
        errorMessage := some "Could not capture photo or session data is missing." },
      [.capture])

def handleRetry (st : State) : State :=
  { st with
      status := .READY, errorMessage := none, isDistanceError := false,
      showErrorMap := false, cameraOn := false }

structure RunOut where
  display : CaptureDisplay
  state : State
  events : List Event
deriving DecidableEq, Repr

/-- One full subject-driven run of the lecturer capture flow: render gate,
entry guard, camera start, then the submit step. -/
def lecturerRun (dist : GeoTag → GeoTag → Rat) (user : UserAcct)
    (facultySession : Option FacultySession) (st : State) (env : Env) : RunOut :=
  match facultySession with
  | none => ⟨.hidden, st, []⟩
  | some s =>
    if isAlreadyMarked (some s) user.id st.lecturerAttendance then
      ⟨.alreadyMarked, st, []⟩
    else
      let st1 : State := { st with status := .CAPTURING, cameraOn := true }
      let r2 := handleSubmit dist user (some s) st1 env
      ⟨.flowRan, r2.1, .cameraStart :: r2.2⟩

end LecturerFlow

/-- Session context built by the lecturer dashboard when a student session
starts; `course` and `unit` mirror the source's `find` lookups, which can
miss. -/
structure StudentSessionContext where
  course : Option Course
  unit : Option CourseUnit
  lecturerId : String
  lockedLocation : GeoTag
  radius : Rat
deriving DecidableEq, Repr

/-- Student-session start validation (lecturer dashboard `handleStart`). -/
def handleStart (courses : List Course) (units : List CourseUnit) (userId : String)
    (selectedCourseId selectedUnitId : String) (radius : Rat)
    (location : Option GeoTag) : Except String StudentSessionContext :=
  if selectedCourseId = "" ∨ selectedUnitId = "" then
    .error "Please select a course and unit to start."
  else if radius < 10 ∨ radius > 5000 then
    .error "Radius must be between 10 and 5000 meters."
  else
    match location with
    | none => .error "Could not get your location. Please enable location services and try again."
    | some loc =>
      .ok { course := courses.find? fun c => c.id == selectedCourseId,
            unit := units.find? fun u => u.id == selectedUnitId,
            lecturerId := userId, lockedLocation := loc, radius := radius }

structure FacultySessionRequest where
  name : String
  lockedLocation : GeoTag
  radius : Rat
deriving DecidableEq, Repr

/-- The JS `trim`: drop leading and trailing whitespace characters. -/
def strTrim (s : String) : String :=
  String.mk (((s.data.dropWhile Char.isWhitespace).reverse.dropWhile
    Char.isWhitespace).reverse)

/-- Faculty-session start validation (admin dashboard
`handleStartFacultySession`): only the name and the location are checked. -/
def handleStartFacultySession (facultySessionName : String)
    (location : Option GeoTag) (radius : Rat) : Except String FacultySessionRequest :=
  if strTrim facultySessionName = "" then .error "Session name cannot be empty."
  else
    match location with
    | none => .error "Please set a location for the session."
    | some loc =>
      .ok { name := facultySessionName, lockedLocation := loc, radius := radius }

/-- The distinct-session key used by the student analytics: unit id plus
calendar day. -/
def sessionKey (r : AttendanceRecord) : String × Nat :=
  (r.unitId, r.timestamp.day)

def studentTotalSessions (attendance : List AttendanceRecord) (courseId : String) : Nat :=
  (((attendance.filter fun r => r.courseId == courseId).map sessionKey).dedup).length

def studentSessionsAttended (attendance : List AttendanceRecord) (studentId : String) : Nat :=
  (((attendance.filter fun r => r.studentId == studentId).map sessionKey).dedup).length

/-- The student dashboard's overall attendance percentage. -/
def studentPercentage (attendance : List AttendanceRecord)
    (studentId courseId : String) : Rat :=
  let total := studentTotalSessions attendance courseId
  let attended := studentSessionsAttended attendance studentId
  if total > 0 then ((attended : Rat) / (total : Rat)) * 100 else 0

def lecturerTotalDays (lecturerAttendance : List LecturerAttendanceRecord) : Nat :=
  ((lecturerAttendance.map fun r => r.timestamp.day).dedup).length

def lecturerPresentDays (lecturerAttendance : List LecturerAttendanceRecord)
    (userId : String) : Nat :=
  (((lecturerAttendance.filter fun r => r.userId == userId).map
      fun r => r.timestamp.day).dedup).length

/-- The lecturer dashboard's overall attendance percentage. -/
def lecturerPercentage (lecturerAttendance : List LecturerAttendanceRecord)
    (userId : String) : Rat :=
  let total := lecturerTotalDays lecturerAttendance
  let present := lecturerPresentDays lecturerAttendance userId
  if total > 0 then ((present : Rat) / (total : Rat)) * 100 else 0

/-! ### Concrete fixtures used by witnesses and counterexamples -/

def exLoc : GeoTag := ⟨0, 0, none⟩

def exCourse : Course := ⟨"c1", "Computer Science"⟩

def exUnit : CourseUnit := ⟨"u1", "Algorithms", "c1"⟩

def exStudent : Student := ⟨"s1", "Alice", "c1", "photoA"⟩

def exStudentOther : Student := ⟨"s2", "Carol", "c9", "photoC"⟩

def exSession : StudentSession := ⟨exCourse, exUnit, "l1", exLoc, 100, ⟨10, 0⟩⟩

def exFaculty : FacultySession := ⟨"f1", "Staff Meeting", ⟨10, 0⟩, exLoc, 100⟩

def exUser : UserAcct := ⟨"l1", "Bob", some "photoB"⟩

def zeroDist : GeoTag → GeoTag → Rat := fun _ _ => 0

def farDist : GeoTag → GeoTag → Rat := fun _ _ => 2000

def stInit : StudentFlow.State := ⟨.READY, none, false, none, false, false, [], []⟩

def lstInit : LecturerFlow.State := ⟨.READY, none, false, none, false, false, []⟩

def envOnline : StudentFlow.Env := ⟨.ok exLoc, some "img", .ok true, true, ⟨10, 5⟩⟩

def envOffline : StudentFlow.Env := ⟨.ok exLoc, some "img", .ok true, false, ⟨10, 5⟩⟩

def lenvOffline : LecturerFlow.Env := ⟨.ok exLoc, some "img", .ok true, false, ⟨10, 5⟩⟩

def exMarkedRecord : AttendanceRecord :=
  ⟨"s1", "Alice", ⟨10, 3⟩, "c1", "u1", exLoc, 100, exLoc⟩

def stMarked : StudentFlow.State := { stInit with attendance := [exMarkedRecord] }

/-! ### Claim theorems -/

/-- C7: round-trip through the offline queue — a record enqueued while
offline is, after connectivity is restored and `processQueue` runs, in the
ledger (appended after the existing contents) and the queue is empty;
the flush moves all queued records at once and clears the queue. -/
theorem offline_queue_roundtrip :
    (∀ (ledger : List AttendanceRecord) (r : AttendanceRecord),
      StudentFlow.processQueue ledger (StudentFlow.enqueue [] r) true = (ledger ++ [r], [])) ∧
    (∀ (ledger q : List AttendanceRecord) (r : AttendanceRecord),
      StudentFlow.processQueue ledger (StudentFlow.enqueue q r) true
        = (ledger ++ StudentFlow.enqueue q r, [])) := by
  constructor
  · intro ledger r
    simp [StudentFlow.processQueue, StudentFlow.enqueue]
  · intro ledger q r
    simp [StudentFlow.processQueue, StudentFlow.enqueue]

/-- C8: starting a student session fails when the course/unit selection is
missing, the radius is outside [10, 5000], or the center location is
unavailable; starting a faculty session fails when the trimmed name is
empty or the location is unavailable, and accepts any positive radius
with no [10, 5000] bound. -/
theorem session_start_validation :
    (∀ (courses : List Course) (units : List CourseUnit) (userId cId uId : String)
        (radius : Rat) (loc : Option GeoTag),
      (cId = "" ∨ uId = "" ∨ radius < 10 ∨ radius > 5000 ∨ loc = none) →
        ∃ msg, handleStart courses units userId cId uId radius loc = .error msg) ∧
    (∀ (nm : String) (loc : Option GeoTag) (radius : Rat),
      (strTrim nm = "" ∨ loc = none) →
        ∃ msg, handleStartFacultySession nm loc radius = .error msg) ∧
    (∀ (nm : String) (l : GeoTag) (radius : Rat), strTrim nm ≠ "" → 0 < radius →
        handleStartFacultySession nm (some l) radius = .ok ⟨nm, l, radius⟩) := by
  refine ⟨?_, ?_, ?_⟩
  · intro courses units userId cId uId radius loc h
    unfold handleStart
    split_ifs with h1 h2
    · exact ⟨_, rfl⟩
    · exact ⟨_, rfl⟩
    · cases loc with
      | none => exact ⟨_, rfl⟩
      | some l =>
        rcases h with h | h | h | h | h
        · exact absurd (Or.inl h) h1
        · exact absurd (Or.inr h) h1
        · exact absurd (Or.inl h) h2
        · exact absurd (Or.inr h) h2
        · exact Option.noConfusion h
  · intro nm loc radius h
    unfold handleStartFacultySession
    split_ifs with h1
    · exact ⟨_, rfl⟩
    · cases loc with
      | none => exact ⟨_, rfl⟩
      | some l =>
        rcases h with h | h
        · exact absurd h h1
        · exact Option.noConfusion h
  · intro nm l radius h hr
    unfold handleStartFacultySession
    split_ifs with h1
    · exact absurd h1 h
    · rfl

/-- Witness for C8: concrete instances of a rejected student session and
an accepted faculty session with radius 7, below the student lower bound. -/
theorem session_start_validation_witness :
    (∃ msg, handleStart [] [] "l1" "" "" 100 none = Except.error msg) ∧
    handleStartFacultySession "Staff" (some exLoc) 7 = .ok ⟨"Staff", exLoc, 7⟩ := by
  constructor
  · exact session_start_validation.1 [] [] "l1" "" "" 100 none (Or.inl rfl)
  · exact session_start_validation.2.2 "Staff" exLoc 7 (by decide) (by decide)

/-- C9: the attendance percentage is the ratio of distinct attended
(unit, day) pairs to distinct offered pairs (scaled to percent), and is
exactly 0 when no pairs are offered, for both the student and the
lecturer analytics; the function is total, so no divide-by-zero fault or
NaN can arise. -/
theorem percentage_zero_denominator_safe :
    (∀ (att : List AttendanceRecord) (sid cid : String),
      studentTotalSessions att cid = 0 → studentPercentage att sid cid = 0) ∧
    (∀ (att : List AttendanceRecord) (sid cid : String),
      0 < studentTotalSessions att cid →
      studentPercentage att sid cid
        = ((studentSessionsAttended att sid : Rat) / (studentTotalSessions att cid : Rat)) * 100) ∧
    (∀ (latt : List LecturerAttendanceRecord) (uid : String),
      lecturerTotalDays latt = 0 → lecturerPercentage latt uid = 0) ∧
    (∀ (latt : List LecturerAttendanceRecord) (uid : String),
      0 < lecturerTotalDays latt →
      lecturerPercentage latt uid
        = ((lecturerPresentDays latt uid : Rat) / (lecturerTotalDays latt : Rat)) * 100) := by
  refine ⟨?_, ?_, ?_, ?_⟩
  · intro att sid cid h
    simp [studentPercentage, h]
  · intro att sid cid h
    simp [studentPercentage, h]
  · intro latt uid h
    simp [lecturerPercentage, h]
  · intro latt uid h
    simp [lecturerPercentage, h]

/-- Witness for C9: with an empty ledger both percentages are 0, and with
one attended record out of two offered the student percentage is 50. -/
theorem percentage_zero_denominator_safe_witness :
    studentPercentage [] "s1" "c1" = 0 ∧ lecturerPercentage [] "l1" = 0 := by
  constructor
  · exact percentage_zero_denominator_safe.1 [] "s1" "c1" rfl
  · exact percentage_zero_denominator_safe.2.2.1 [] "l1" rfl

def exErrorState : StudentFlow.State :=
  { status := .ERROR,
    errorMessage := some "Face does not match registered photo. Please try again.",
    isDistanceError := false, studentLocation := some exLoc, showErrorMap := false,
    cameraOn := false, attendance := [], queue := [] }

/-- C6 counterexample: a retry from a concrete ERROR state returns to
READY but does not discard the previously acquired location — the
`studentLocation` field still holds the old reading afterwards. -/
theorem retry_keeps_location_counterexample :
    (StudentFlow.handleRetry exErrorState).status = .READY ∧
    (StudentFlow.handleRetry exErrorState).studentLocation ≠ none ∧
    (StudentFlow.handleRetry exErrorState).studentLocation = some exLoc := by
  refine ⟨rfl, ?_, rfl⟩
  decide

/-- C6 amended: retry from ERROR returns the machine to READY, clears the
error message, the distance-error tag, the error map and the camera, in
both flows; it leaves the previously acquired location in place (and no
captured image is retained in state at all), but the next attempt
re-acquires a fresh location before any use: the student location step
overwrites the stored location whenever geolocation succeeds. -/
theorem handleRetry_full_restart :
    (∀ st : StudentFlow.State,
      StudentFlow.handleRetry st =
        { st with status := .READY, errorMessage := none, isDistanceError := false,
                  showErrorMap := false, cameraOn := false }) ∧
    (∀ st : StudentFlow.State,
      (StudentFlow.handleRetry st).studentLocation = st.studentLocation) ∧
    (∀ st : LecturerFlow.State,
      LecturerFlow.handleRetry st =
        { st with status := .READY, errorMessage := none, isDistanceError := false,
                  showErrorMap := false, cameraOn := false }) ∧
    (∀ st : LecturerFlow.State,
      (LecturerFlow.handleRetry st).lecturerLocation = st.lecturerLocation) ∧
    (∀ (dist : GeoTag → GeoTag → Rat) (ss : Option StudentSession)
        (st : StudentFlow.State) (env : StudentFlow.Env) (loc : GeoTag),
      env.geo = Except.ok loc →
      (StudentFlow.handleStartAttendanceProcess dist ss st env).1.studentLocation = some loc) := by
  refine ⟨fun st => rfl, fun st => rfl, fun st => rfl, fun st => rfl, ?_⟩
  intro dist ss st env loc hgeo
  unfold StudentFlow.handleStartAttendanceProcess
  rw [hgeo]
  cases ss with
  | none => rfl
  | some s =>
    by_cases hd : dist loc s.lockedLocation > s.radius
    · simp [hd]
    · simp [hd]

/-- Witness for C6 amended: after a retry from the concrete ERROR state a
fresh successful location step stores the newly acquired reading. -/
theorem handleRetry_full_restart_witness :
    (StudentFlow.handleStartAttendanceProcess zeroDist (some exSession)
      (StudentFlow.handleRetry exErrorState) envOnline).1.studentLocation = some exLoc :=
  handleRetry_full_restart.2.2.2.2 zeroDist (some exSession)
    (StudentFlow.handleRetry exErrorState) envOnline exLoc rfl

/-- C1: evaluated at a concrete offline submission in which every check
passes, the lecturer flow ends in CONFIRMED, leaves the ledger unchanged
and emits neither a commit nor an enqueue — the built record is lost —
whereas the student flow at the analogous offline input enqueues its
record and ends in OFFLINE_QUEUED. -/
theorem lecturer_offline_submission_dropped :
    (LecturerFlow.lecturerRun zeroDist exUser (some exFaculty) lstInit lenvOffline).state.status
        = .CONFIRMED ∧
    (LecturerFlow.lecturerRun zeroDist exUser (some exFaculty) lstInit
        lenvOffline).state.lecturerAttendance = [] ∧
    ((LecturerFlow.lecturerRun zeroDist exUser (some exFaculty) lstInit
        lenvOffline).events.contains .enqueueRecord = false ∧
     (LecturerFlow.lecturerRun zeroDist exUser (some exFaculty) lstInit
        lenvOffline).events.contains .commit = false) ∧
    (StudentFlow.studentRun zeroDist (some exSession) (some exStudent) stInit
        envOffline).state.status = .OFFLINE_QUEUED ∧
    (StudentFlow.studentRun zeroDist (some exSession) (some exStudent) stInit
        envOffline).state.queue ≠ [] := by
  refine ⟨rfl, rfl, ⟨rfl, rfl⟩, rfl, ?_⟩
  decide

/-- C3: a subject who already has a record matching the active session's
identity and calendar day gets the "already marked" terminal display at
once — the state is untouched and no collaborator call (geolocation, face
oracle, camera) is made — in both the student and the lecturer flow. -/
theorem already_marked_short_circuit :
    (∀ (dist : GeoTag → GeoTag → Rat) (ss : Option StudentSession)
        (sd : Option Student) (st : StudentFlow.State) (env : StudentFlow.Env),
      StudentFlow.isAlreadyMarked ss sd st.attendance = true →
      StudentFlow.studentRun dist ss sd st env = ⟨.alreadyMarked, st, []⟩) ∧
    (∀ (dist : GeoTag → GeoTag → Rat) (user : UserAcct)
        (fs : Option FacultySession) (st : LecturerFlow.State) (env : LecturerFlow.Env),
      LecturerFlow.isAlreadyMarked fs user.id st.lecturerAttendance = true →
      LecturerFlow.lecturerRun dist user fs st env = ⟨.alreadyMarked, st, []⟩) := by
  constructor
  · intro dist ss sd st env h
    rcases ss with _ | s
    · simp [StudentFlow.isAlreadyMarked] at h
    rcases sd with _ | d
    · simp [StudentFlow.isAlreadyMarked] at h
    have hact : StudentFlow.isSessionActiveForStudent (some s) (some d) = true := by
      by_contra hc
      rw [Bool.not_eq_true] at hc
      simp [StudentFlow.isAlreadyMarked, hc] at h
    simp [StudentFlow.studentRun, hact, h]
  · intro dist user fs st env h
    rcases fs with _ | s
    · simp [LecturerFlow.isAlreadyMarked] at h
    · simp [LecturerFlow.lecturerRun, h]

/-- Witness for C3: a student already recorded for the session's unit and
day sees the terminal display and the run makes no calls. -/
theorem already_marked_short_circuit_witness :
    StudentFlow.studentRun zeroDist (some exSession) (some exStudent) stMarked envOnline
      = ⟨.alreadyMarked, stMarked, []⟩ :=
  already_marked_short_circuit.1 zeroDist (some exSession) (some exStudent)
    stMarked envOnline (by decide)

/-- C10: the student capture flow is offered only when a student session
is active and the student's course matches the session's course; with no
session, or a course mismatch, the run shows nothing, makes no
collaborator call and leaves the state (ledger and queue included)
unchanged. -/
theorem capture_gate_requires_matching_course :
    (∀ (dist : GeoTag → GeoTag → Rat) (ss : Option StudentSession)
        (sd : Option Student) (st : StudentFlow.State) (env : StudentFlow.Env),
      StudentFlow.isSessionActiveForStudent ss sd = false →
      StudentFlow.studentRun dist ss sd st env = ⟨.hidden, st, []⟩) ∧
    (∀ (s : StudentSession) (d : Student), d.courseId ≠ s.course.id →
      StudentFlow.isSessionActiveForStudent (some s) (some d) = false) ∧
    (∀ (dist : GeoTag → GeoTag → Rat) (st : StudentFlow.State)
        (env : StudentFlow.Env) (s : StudentSession) (d : Student),
      d.courseId ≠ s.course.id →
      StudentFlow.studentRun dist (some s) (some d) st env = ⟨.hidden, st, []⟩) := by
  have p1 : ∀ (dist : GeoTag → GeoTag → Rat) (ss : Option StudentSession)
      (sd : Option Student) (st : StudentFlow.State) (env : StudentFlow.Env),
      StudentFlow.isSessionActiveForStudent ss sd = false →
      StudentFlow.studentRun dist ss sd st env = ⟨.hidden, st, []⟩ := by
    intro dist ss sd st env h
    simp [StudentFlow.studentRun, h]
  have p2 : ∀ (s : StudentSession) (d : Student), d.courseId ≠ s.course.id →
      StudentFlow.isSessionActiveForStudent (some s) (some d) = false := by
    intro s d h
    simp [StudentFlow.isSessionActiveForStudent, h]
  exact ⟨p1, p2, fun dist st env s d h => p1 dist (some s) (some d) st env (p2 s d h)⟩

/-- Witness for C10: a student enrolled in a different course than the
active session's course is not offered the flow. -/
theorem capture_gate_requires_matching_course_witness :
    StudentFlow.studentRun zeroDist (some exSession) (some exStudentOther) stInit envOnline
      = ⟨.hidden, stInit, []⟩ :=
  capture_gate_requires_matching_course.2.2 zeroDist stInit envOnline exSession
    exStudentOther (by decide)

/-- C4: in the student flow, when geolocation returns a position farther
from the session center than the radius, the run ends in ERROR tagged as a
distance error, the emitted events are exactly the geolocation call and
the distance check — so no camera capture ever occurs — and the ledger and
queue are unchanged (the subject stays unmarked). -/
theorem student_geofence_violation_blocks_capture :
    ∀ (dist : GeoTag → GeoTag → Rat) (ss : Option StudentSession) (sd : Option Student)
      (st : StudentFlow.State) (env : StudentFlow.Env) (s : StudentSession) (P : GeoTag),
      ss = some s → env.geo = Except.ok P →
      StudentFlow.isSessionActiveForStudent ss sd = true →
      StudentFlow.isAlreadyMarked ss sd st.attendance = false →
      dist P s.lockedLocation > s.radius →
      (StudentFlow.studentRun dist ss sd st env).state.status = .ERROR ∧
      (StudentFlow.studentRun dist ss sd st env).state.isDistanceError = true ∧
      (StudentFlow.studentRun dist ss sd st env).events = [.geoCall, .distanceCheck] ∧
      (StudentFlow.studentRun dist ss sd st env).state.attendance = st.attendance ∧
      (StudentFlow.studentRun dist ss sd st env).state.queue = st.queue := by
  intro dist ss sd st env s P hss hgeo hact hmk hd
  subst hss
  simp [StudentFlow.studentRun, hact, hmk, StudentFlow.handleStartAttendanceProcess, hgeo, hd]

/-- Witness for C4: a position 2000 m from a 100 m session yields the
distance-tagged ERROR with no capture and an unchanged ledger. -/
theorem student_geofence_violation_blocks_capture_witness :
    (StudentFlow.studentRun farDist (some exSession) (some exStudent) stInit envOnline).state.status = .ERROR ∧
    (StudentFlow.studentRun farDist (some exSession) (some exStudent) stInit envOnline).state.isDistanceError = true ∧
    (StudentFlow.studentRun farDist (some exSession) (some exStudent) stInit envOnline).events = [.geoCall, .distanceCheck] ∧
    (StudentFlow.studentRun farDist (some exSession) (some exStudent) stInit envOnline).state.attendance = stInit.attendance ∧
    (StudentFlow.studentRun farDist (some exSession) (some exStudent) stInit envOnline).state.queue = stInit.queue :=
  student_geofence_violation_blocks_capture farDist (some exSession) (some exStudent)
    stInit envOnline exSession exLoc rfl rfl (by decide) (by decide) (by decide)

/-- Every event trace a student run can produce is one of these eight
prefix-ordered traces; geolocation, the distance check and the camera
start always precede the capture/verify/persist tail. -/
lemma studentRun_events_mem (dist : GeoTag → GeoTag → Rat)
    (ss : Option StudentSession) (sd : Option Student)
    (st : StudentFlow.State) (env : StudentFlow.Env) :
    (StudentFlow.studentRun dist ss sd st env).events ∈
      ([[], [.geoCall], [.geoCall, .distanceCheck],
        [.geoCall, .distanceCheck, .cameraStart, .capture],
        [.geoCall, .distanceCheck, .cameraStart, .capture, .faceCall],
        [.geoCall, .distanceCheck, .cameraStart, .capture, .faceCall, .faceSuccess],
        [.geoCall, .distanceCheck, .cameraStart, .capture, .faceCall, .faceSuccess, .commit],
        [.geoCall, .distanceCheck, .cameraStart, .capture, .faceCall, .faceSuccess, .enqueueRecord]] :
        List (List Event)) := by
  unfold StudentFlow.studentRun StudentFlow.handleSubmit StudentFlow.handleStartAttendanceProcess
  repeat' split
  all_goals simp_all

/-- Every event trace a lecturer run can produce is one of these six
traces; geolocation and the distance check come only after a successful
face match, and the commit only after the distance check. -/
lemma lecturerRun_events_mem (dist : GeoTag → GeoTag → Rat) (user : UserAcct)
    (fs : Option FacultySession) (lst : LecturerFlow.State) (lenv : LecturerFlow.Env) :
    (LecturerFlow.lecturerRun dist user fs lst lenv).events ∈
      ([[], [.cameraStart, .capture],
        [.cameraStart, .capture, .faceCall],
        [.cameraStart, .capture, .faceCall, .faceSuccess, .geoCall],
        [.cameraStart, .capture, .faceCall, .faceSuccess, .geoCall, .distanceCheck],
        [.cameraStart, .capture, .faceCall, .faceSuccess, .geoCall, .distanceCheck, .commit]] :
        List (List Event)) := by
  unfold LecturerFlow.lecturerRun LecturerFlow.handleSubmit
  repeat' split
  all_goals simp_all

/-- C5: the geofence check is ordered asymmetrically by subject kind — in
every student run the distance check precedes the camera start and the
capture, while in every lecturer run the distance check occurs only after
the face match has succeeded and before the record commit. -/
theorem geofence_check_ordering :
    ∀ (dist : GeoTag → GeoTag → Rat) (ss : Option StudentSession) (sd : Option Student)
      (st : StudentFlow.State) (env : StudentFlow.Env) (user : UserAcct)
      (fs : Option FacultySession) (lst : LecturerFlow.State) (lenv : LecturerFlow.Env),
      (firstPrecedes .distanceCheck .cameraStart (StudentFlow.studentRun dist ss sd st env).events = true ∧
       firstPrecedes .distanceCheck .capture (StudentFlow.studentRun dist ss sd st env).events = true) ∧
      (firstPrecedes .faceSuccess .distanceCheck (LecturerFlow.lecturerRun dist user fs lst lenv).events = true ∧
       firstPrecedes .distanceCheck .commit (LecturerFlow.lecturerRun dist user fs lst lenv).events = true) := by
  intro dist ss sd st env user fs lst lenv
  have hs := studentRun_events_mem dist ss sd st env
  have hl := lecturerRun_events_mem dist user fs lst lenv
  simp only [List.mem_cons, List.not_mem_nil, or_false] at hs hl
  constructor
  · rcases hs with h|h|h|h|h|h|h|h <;> rw [h] <;> exact ⟨rfl, rfl⟩
  · rcases hl with h|h|h|h|h|h <;> rw [h] <;> exact ⟨rfl, rfl⟩

/-- C2: no record reaches the ledger or the queue unless every check
passes — a run whose subject is already marked, whose face oracle does
not return a match, or whose distance check fails leaves the ledger and
queue exactly as they were, in both flows; and when the oracle returns
false an eligible run ends in ERROR with nothing persisted. -/
theorem capture_requires_all_checks :
    (∀ (dist : GeoTag → GeoTag → Rat) (ss : Option StudentSession) (sd : Option Student)
        (st : StudentFlow.State) (env : StudentFlow.Env),
      StudentFlow.isAlreadyMarked ss sd st.attendance = true →
      (StudentFlow.studentRun dist ss sd st env).state.attendance = st.attendance ∧
      (StudentFlow.studentRun dist ss sd st env).state.queue = st.queue) ∧
    (∀ (dist : GeoTag → GeoTag → Rat) (ss : Option StudentSession) (sd : Option Student)
        (st : StudentFlow.State) (env : StudentFlow.Env),
      env.face ≠ Except.ok true →
      (StudentFlow.studentRun dist ss sd st env).state.attendance = st.attendance ∧
      (StudentFlow.studentRun dist ss sd st env).state.queue = st.queue) ∧
    (∀ (dist : GeoTag → GeoTag → Rat) (ss : Option StudentSession) (sd : Option Student)
        (st : StudentFlow.State) (env : StudentFlow.Env) (s : StudentSession) (P : GeoTag),
      ss = some s → env.geo = Except.ok P → dist P s.lockedLocation > s.radius →
      (StudentFlow.studentRun dist ss sd st env).state.attendance = st.attendance ∧
      (StudentFlow.studentRun dist ss sd st env).state.queue = st.queue) ∧
    (∀ (dist : GeoTag → GeoTag → Rat) (ss : Option StudentSession) (sd : Option Student)
        (st : StudentFlow.State) (env : StudentFlow.Env),
      StudentFlow.isSessionActiveForStudent ss sd = true →
      StudentFlow.isAlreadyMarked ss sd st.attendance = false →
      env.face = Except.ok false →
      (StudentFlow.studentRun dist ss sd st env).state.status = Status.ERROR ∧
      (StudentFlow.studentRun dist ss sd st env).state.attendance = st.attendance ∧
      (StudentFlow.studentRun dist ss sd st env).state.queue = st.queue) ∧
    (∀ (dist : GeoTag → GeoTag → Rat) (user : UserAcct) (fs : Option FacultySession)
        (lst : LecturerFlow.State) (lenv : LecturerFlow.Env),
      LecturerFlow.isAlreadyMarked fs user.id lst.lecturerAttendance = true →
      (LecturerFlow.lecturerRun dist user fs lst lenv).state.lecturerAttendance = lst.lecturerAttendance) ∧
    (∀ (dist : GeoTag → GeoTag → Rat) (user : UserAcct) (fs : Option FacultySession)
        (lst : LecturerFlow.State) (lenv : LecturerFlow.Env),
      lenv.face ≠ Except.ok true →
      (LecturerFlow.lecturerRun dist user fs lst lenv).state.lecturerAttendance = lst.lecturerAttendance) ∧
    (∀ (dist : GeoTag → GeoTag → Rat) (user : UserAcct) (fs : Option FacultySession)
        (lst : LecturerFlow.State) (lenv : LecturerFlow.Env) (s : FacultySession) (P : GeoTag),
      fs = some s → lenv.geo = Except.ok P → dist P s.lockedLocation > s.radius →
      (LecturerFlow.lecturerRun dist user fs lst lenv).state.lecturerAttendance = lst.lecturerAttendance) ∧
    (∀ (dist : GeoTag → GeoTag → Rat) (user : UserAcct) (fs : Option FacultySession)
        (lst : LecturerFlow.State) (lenv : LecturerFlow.Env) (s : FacultySession),
      fs = some s →
      LecturerFlow.isAlreadyMarked fs user.id lst.lecturerAttendance = false →
      lenv.face = Except.ok false →
      (LecturerFlow.lecturerRun dist user fs lst lenv).state.status = Status.ERROR ∧
      (LecturerFlow.lecturerRun dist user fs lst lenv).state.lecturerAttendance = lst.lecturerAttendance) := by
  refine ⟨?_, ?_, ?_, ?_, ?_, ?_, ?_, ?_⟩
  · intro dist ss sd st env h
    unfold StudentFlow.studentRun
    repeat' split
    all_goals simp_all
  · intro dist ss sd st env h
    unfold StudentFlow.studentRun StudentFlow.handleSubmit StudentFlow.handleStartAttendanceProcess
    repeat' split
    all_goals simp_all
  · intro dist ss sd st env s P hss hgeo hd
    subst hss
    unfold StudentFlow.studentRun StudentFlow.handleSubmit StudentFlow.handleStartAttendanceProcess
    repeat' split
    all_goals try simp_all
    all_goals linarith
  · intro dist ss sd st env hact hmk hface
    unfold StudentFlow.studentRun StudentFlow.handleSubmit StudentFlow.handleStartAttendanceProcess
    repeat' split
    all_goals simp_all
  · intro dist user fs lst lenv h
    unfold LecturerFlow.lecturerRun
    repeat' split
    all_goals simp_all
  · intro dist user fs lst lenv h
    unfold LecturerFlow.lecturerRun LecturerFlow.handleSubmit
    repeat' split
    all_goals simp_all
  · intro dist user fs lst lenv s P hfs hgeo hd
    subst hfs
    unfold LecturerFlow.lecturerRun LecturerFlow.handleSubmit
    repeat' split
    all_goals try simp_all
    all_goals linarith
  · intro dist user fs lst lenv s hfs hmk hface
    subst hfs
    unfold LecturerFlow.lecturerRun LecturerFlow.handleSubmit
    repeat' split
    all_goals simp_all

def envFaceFalse : StudentFlow.Env := ⟨.ok exLoc, some "img", .ok false, true, ⟨10, 5⟩⟩

/-- Witness for C2: a concrete eligible student run whose face oracle
returns false ends in ERROR with the ledger and queue untouched. -/
theorem capture_requires_all_checks_witness :
    (StudentFlow.studentRun zeroDist (some exSession) (some exStudent) stInit envFaceFalse).state.status = Status.ERROR ∧
    (StudentFlow.studentRun zeroDist (some exSession) (some exStudent) stInit envFaceFalse).state.attendance = stInit.attendance ∧
    (StudentFlow.studentRun zeroDist (some exSession) (some exStudent) stInit envFaceFalse).state.queue = stInit.queue :=
  capture_requires_all_checks.2.2.2.1 zeroDist (some exSession) (some exStudent)
    stInit envFaceFalse (by decide) (by decide) rfl
